import Mathlib

/-!
Verification development for `mne_g3d/viz.py`.

The file embeds, over exact rational arithmetic (`ℚ`), the numeric parts of
`plot_brain_mesh` and `plot_source_estimates`: the alpha-ramp construction for
the positive ("hot") and two-tailed ("mne") colormaps, the linear data
normalization `k * data + b`, the activation-data split between hemispheres,
the argument validation, the per-view figure construction, and the interactive
handlers (`slider_handler`, `on_update`) as explicit state-transition
functions.

An important detail kept faithfully throughout: `numpy.clip(a, lo, hi)` returns
a clipped copy and leaves `a` untouched when no `out=` is given; every call of
`np.clip` in `viz.py` discards that return value, so the clip has no effect on
the values that flow onward.
-/

/-- Model of the value `np.clip(x, lo, hi)` returns: `x` clamped to
`[lo, hi]`. -/
def np_clip (lo hi x : ℚ) : ℚ := max lo (min x hi)

/-! ### Normalization in `plot_source_estimates` (viz.py lines 435-439) -/

/-- Coefficient `k = 1 / (dt_max - dt_min)` with `dt_max = scale_pts[-1]`,
`dt_min = scale_pts[0]` (viz.py lines 436-438). -/
def norm_k (sMin sMax : ℚ) : ℚ := 1 / (sMax - sMin)

/-- Offset `b = 1 - k * dt_max` (viz.py line 439). -/
def norm_b (sMin sMax : ℚ) : ℚ := 1 - norm_k sMin sMax * sMax

/-- The scalar the code actually hands to the colormap for a raw data value
`x`: it computes `data = k * data + b` and then evaluates `np.clip(data, 0, 1)`
without assigning the result and without `out=` (viz.py lines 468-471, likewise
553-555 and 659-661), so `cmap(data)` receives the unclipped value. -/
def handed_to_cmap (sMin sMax x : ℚ) : ℚ := norm_k sMin sMax * x + norm_b sMin sMax

/-! ### Alpha ramps of `plot_brain_mesh` (viz.py lines 94-134) -/

/-- Alpha assigned to colormap entry `i` in the positive ("hot") branch
(viz.py lines 94-111): entries start at 1, `step = scale_pts[-1] / N`,
`curr_pos = i * step`, `k = 1 / (ctrl_pts[1] - ctrl_pts[0])`,
`b = -ctrl_pts[0] * k`. -/
def hot_alpha (c0 c1 sMax : ℚ) (N i : ℕ) : ℚ :=
  if (i : ℚ) * (sMax / (N : ℚ)) < c0 then 0
  else if c0 ≤ (i : ℚ) * (sMax / (N : ℚ)) ∧ (i : ℚ) * (sMax / (N : ℚ)) < c1 then
    (1 / (c1 - c0)) * ((i : ℚ) * (sMax / (N : ℚ))) + (-c0 * (1 / (c1 - c0)))
  else 1

/-- Alpha of the two-tailed ("mne") branch as a function of the colormap
position `p` (viz.py lines 112-130, where `p = i * step + scale_pts[0]`):
`k_pos = 1 / (ctrl_pts[1] - ctrl_pts[0])`, `k_neg = -k_pos`,
`b = -ctrl_pts[0] * k_pos`, entries start at 1. -/
def mne_alpha (c0 c1 p : ℚ) : ℚ :=
  if -c0 < p ∧ p < c0 then 0
  else if c0 ≤ p ∧ p < c1 then (1 / (c1 - c0)) * p + (-c0 * (1 / (c1 - c0)))
  else if p ≤ -c0 ∧ -c1 < p then (-(1 / (c1 - c0))) * p + (-c0 * (1 / (c1 - c0)))
  else 1

/-- The per-entry alpha of the mne branch: entry `i` sits at position
`i * ((scale_pts[-1] - scale_pts[0]) / N) + scale_pts[0]`. -/
def mne_alpha_entry (c0 c1 sMin sMax : ℚ) (N i : ℕ) : ℚ :=
  mne_alpha c0 c1 ((i : ℚ) * ((sMax - sMin) / (N : ℚ)) + sMin)

lemma ramp_eq (c0 c1 q : ℚ) (hd : c1 - c0 ≠ 0) :
    (1 / (c1 - c0)) * q + (-c0 * (1 / (c1 - c0))) = (q - c0) / (c1 - c0) := by
  field_simp
  ring

lemma neg_ramp_eq (c0 c1 q : ℚ) (hd : c1 - c0 ≠ 0) :
    (-(1 / (c1 - c0))) * q + (-c0 * (1 / (c1 - c0))) = (-q - c0) / (c1 - c0) := by
  field_simp
  ring

lemma mne_alpha_abs (c0 c1 : ℚ) (h0 : 0 < c0) (h1 : c0 < c1) (p : ℚ) :
    mne_alpha c0 c1 p =
      if |p| < c0 then 0
      else if |p| < c1 then (|p| - c0) / (c1 - c0) else 1 := by
  have hd : (0 : ℚ) < c1 - c0 := by linarith
  rcases abs_cases p with ⟨ha, hp0⟩ | ⟨ha, hp0⟩ <;> rw [ha] <;> unfold mne_alpha
  · -- 0 ≤ p, |p| = p
    rcases lt_or_le p c0 with hc | hc
    · rw [if_pos ⟨by linarith, hc⟩, if_pos hc]
    · rcases lt_or_le p c1 with hc1 | hc1
      · rw [if_neg (by rintro ⟨-, h⟩; linarith), if_pos ⟨hc, hc1⟩,
          if_neg (not_lt.2 hc), if_pos hc1, ramp_eq c0 c1 p hd.ne']
      · rw [if_neg (by rintro ⟨-, h⟩; linarith),
          if_neg (by rintro ⟨-, h⟩; linarith),
          if_neg (by rintro ⟨h, -⟩; linarith),
          if_neg (not_lt.2 (by linarith)), if_neg (not_lt.2 hc1)]
  · -- p < 0, |p| = -p
    rcases lt_or_le (-c0) p with hc | hc
    · rw [if_pos ⟨hc, by linarith⟩, if_pos (by linarith)]
    · rcases lt_or_le (-c1) p with hc1 | hc1
      · rw [if_neg (by rintro ⟨h, -⟩; linarith),
          if_neg (by rintro ⟨h, -⟩; linarith),
          if_pos ⟨by linarith, hc1⟩,
          if_neg (not_lt.2 (by linarith)), if_pos (by linarith),
          neg_ramp_eq c0 c1 p hd.ne']
      · rw [if_neg (by rintro ⟨h, -⟩; linarith),
          if_neg (by rintro ⟨h, -⟩; linarith),
          if_neg (by rintro ⟨-, h⟩; linarith),
          if_neg (not_lt.2 (by linarith)), if_neg (not_lt.2 (by linarith))]

/-- C1: in `plot_source_estimates` the claim says every scalar handed to the
colormap lies in `[0, 1]` after clipping, even for raw data outside
`[scale_pts[0], scale_pts[-1]]`.  The code discards the result of
`np.clip(data, 0, 1)`, so with `scale_pts = (0, 1, 2)` and raw value `4` the
colormap receives `2`, outside `[0, 1]`; the clip the code intended would have
produced `1`. -/
theorem handed_to_cmap_escapes_unit_interval :
    handed_to_cmap 0 2 4 = 2 ∧
    ¬ handed_to_cmap 0 2 4 ≤ 1 ∧
    np_clip 0 1 (handed_to_cmap 0 2 4) = 1 ∧
    (∀ x : ℚ, 0 ≤ np_clip 0 1 (handed_to_cmap 0 2 x) ∧
      np_clip 0 1 (handed_to_cmap 0 2 x) ≤ 1) := by
  refine ⟨by norm_num [handed_to_cmap, norm_k, norm_b],
    by norm_num [handed_to_cmap, norm_k, norm_b],
    by norm_num [np_clip, handed_to_cmap, norm_k, norm_b],
    fun x => ⟨le_max_left _ _, max_le (by norm_num) (min_le_right _ _)⟩⟩

/-- C3: in the positive ("hot") branch of `plot_brain_mesh`, given
`ctrl_pts[0] < ctrl_pts[1]`, the alpha of entry `i` at position
`p = i * scale_pts[-1] / N` is `0` for `p < ctrl_pts[0]`, the linear ramp
`(p - ctrl_pts[0]) / (ctrl_pts[1] - ctrl_pts[0])` for
`ctrl_pts[0] ≤ p < ctrl_pts[1]`, and `1` for `p ≥ ctrl_pts[1]`; every assigned
alpha lies in `[0, 1]`. -/
theorem hot_alpha_spec (c0 c1 sMax : ℚ) (N i : ℕ) (h : c0 < c1) :
    ((i : ℚ) * (sMax / (N : ℚ)) < c0 → hot_alpha c0 c1 sMax N i = 0) ∧
    (c0 ≤ (i : ℚ) * (sMax / (N : ℚ)) → (i : ℚ) * (sMax / (N : ℚ)) < c1 →
      hot_alpha c0 c1 sMax N i
        = ((i : ℚ) * (sMax / (N : ℚ)) - c0) / (c1 - c0)) ∧
    (c1 ≤ (i : ℚ) * (sMax / (N : ℚ)) → hot_alpha c0 c1 sMax N i = 1) ∧
    0 ≤ hot_alpha c0 c1 sMax N i ∧ hot_alpha c0 c1 sMax N i ≤ 1 := by
  have hd : (0 : ℚ) < c1 - c0 := by linarith
  unfold hot_alpha
  split_ifs with hA hB
  · exact ⟨fun _ => rfl, fun hc _ => absurd hA (not_lt.2 hc),
      fun hc => absurd hA (not_lt.2 (by linarith)), le_refl 0, by norm_num⟩
  · refine ⟨fun hc => absurd hc hA, fun _ _ => ramp_eq c0 c1 _ hd.ne',
      fun hc => absurd hB.2 (not_lt.2 hc), ?_, ?_⟩
    · rw [ramp_eq c0 c1 _ hd.ne']
      exact div_nonneg (by linarith [hB.1]) hd.le
    · rw [ramp_eq c0 c1 _ hd.ne']
      exact le_of_lt ((div_lt_one hd).2 (by linarith [hB.2]))
  · refine ⟨fun hc => absurd hc hA, fun hc hc1 => absurd ⟨hc, hc1⟩ hB,
      fun _ => rfl, by norm_num, le_refl 1⟩

/-- Witness for C3: concrete control points `(0, 2)`, `scale_pts[-1] = 4`,
`N = 256`, entry `64` at position `1`. -/
theorem hot_alpha_spec_witness :
    (0 : ℚ) < 2 ∧ 0 ≤ hot_alpha 0 2 4 256 64 ∧ hot_alpha 0 2 4 256 64 ≤ 1 :=
  ⟨by norm_num, (hot_alpha_spec 0 2 4 256 64 (by norm_num)).2.2.2.1,
    (hot_alpha_spec 0 2 4 256 64 (by norm_num)).2.2.2.2⟩

/-- C4: in the two-tailed ("mne") branch of `plot_brain_mesh`, given
`0 < ctrl_pts[0] < ctrl_pts[1]`, the alpha ramp is an even function of the
position: `p` and `-p` receive the same alpha; it is `0` strictly inside
`(-ctrl_pts[0], ctrl_pts[0])`, equals the ramp
`(p - ctrl_pts[0]) / (ctrl_pts[1] - ctrl_pts[0])` on `[ctrl_pts[0], ctrl_pts[1])`
and `(-p - ctrl_pts[0]) / (ctrl_pts[1] - ctrl_pts[0])` on
`(-ctrl_pts[1], -ctrl_pts[0]]` (both equal to
`(|p| - ctrl_pts[0]) / (ctrl_pts[1] - ctrl_pts[0])`, rising from 0 towards 1 as
`|p|` grows), and is `1` for `|p| ≥ ctrl_pts[1]`. -/
theorem mne_alpha_even_ramp (c0 c1 : ℚ) (h0 : 0 < c0) (h1 : c0 < c1) :
    (∀ p, mne_alpha c0 c1 (-p) = mne_alpha c0 c1 p) ∧
    (∀ p, -c0 < p → p < c0 → mne_alpha c0 c1 p = 0) ∧
    (∀ p, c0 ≤ p → p < c1 → mne_alpha c0 c1 p = (p - c0) / (c1 - c0)) ∧
    (∀ p, -c1 < p → p ≤ -c0 → mne_alpha c0 c1 p = (-p - c0) / (c1 - c0)) ∧
    (∀ p, c1 ≤ |p| → mne_alpha c0 c1 p = 1) := by
  refine ⟨?_, ?_, ?_, ?_, ?_⟩
  · intro p
    rw [mne_alpha_abs c0 c1 h0 h1, mne_alpha_abs c0 c1 h0 h1, abs_neg]
  · intro p hl hr
    rw [mne_alpha_abs c0 c1 h0 h1, if_pos (abs_lt.2 ⟨hl, hr⟩)]
  · intro p hl hr
    have hp : |p| = p := abs_of_nonneg (by linarith)
    rw [mne_alpha_abs c0 c1 h0 h1, hp, if_neg (not_lt.2 hl), if_pos hr]
  · intro p hl hr
    have hp : |p| = -p := abs_of_nonpos (by linarith)
    rw [mne_alpha_abs c0 c1 h0 h1, hp, if_neg (not_lt.2 (by linarith)),
      if_pos (by linarith)]
  · intro p hc
    rw [mne_alpha_abs c0 c1 h0 h1, if_neg (not_lt.2 (by linarith)),
      if_neg (not_lt.2 hc)]

/-- Witness for C4: control points `(1, 2)`, evenness and the positive ramp
evaluated at position `3/2`. -/
theorem mne_alpha_even_ramp_witness :
    mne_alpha 1 2 (-(3 / 2)) = mne_alpha 1 2 (3 / 2) ∧
    mne_alpha 1 2 (3 / 2) = (3 / 2 - 1) / (2 - 1) :=
  ⟨(mne_alpha_even_ramp 1 2 (by norm_num) (by norm_num)).1 (3 / 2),
    (mne_alpha_even_ramp 1 2 (by norm_num) (by norm_num)).2.2.1 (3 / 2)
      (by norm_num) (by norm_num)⟩

/-! ### The interactive time-viewer state (viz.py lines 523-691) -/

/-- Hemisphere names, `hemis` in the code. -/
inductive Hemi
  | lh
  | rh
deriving DecidableEq, Repr

/-- The eight view names of `views_dict` (viz.py lines 351-358). -/
inductive View
  | lat
  | med
  | fos
  | cau
  | dor
  | ven
  | fro
  | par
deriving DecidableEq, Repr

/-- Modelled from the spec: `_calculate_cmap` lives in `mne_g3d/_utils.py`,
which is not among the sources here; per the spec it builds the RGBA
color/alpha transfer function from the limit colormap, the global alpha and
the control/scale points.  The resulting colormap is represented by the inputs
that determine it. -/
structure Cmap where
  lim_str : Bool
  alpha_g : ℚ
  ctrl : ℚ × ℚ × ℚ
  scale : ℚ × ℚ × ℚ
deriving DecidableEq, Repr

/-- `_calculate_cmap(lim_cmap, alpha, ctrl_pts, scale_pts)` as an abstract
constructor of its arguments. -/
def calculate_cmap (lim_str : Bool) (alpha_g : ℚ) (ctrl scale : ℚ × ℚ × ℚ) :
    Cmap :=
  ⟨lim_str, alpha_g, ctrl, scale⟩

/-- A vertex color as produced by evaluating a colormap at a (normalized)
scalar, `cmap(value)`. -/
structure Color where
  cm : Cmap
  val : ℚ
deriving DecidableEq, Repr

/-- The per-hemisphere slice of the morphed data vector:
`stc_data[:len(hemi_vertices['lh'])]` for the left hemisphere and
`stc_data[len(hemi_vertices['lh']):]` for the right (viz.py lines 548-551). -/
def hemi_data (nLh : ℕ) (stcData : List ℚ) : Hemi → List ℚ
  | Hemi.lh => stcData.take nLh
  | Hemi.rh => stcData.drop nLh

/-- `data = k * data + b` (viz.py line 553; the following `np.clip(data, 0, 1)`
discards its result, so nothing more happens to the values). -/
def renorm (k b : ℚ) (xs : List ℚ) : List ℚ := xs.map (fun x => k * x + b)

/-- `cmap(data)` applied elementwise. -/
def apply_cmap (c : Cmap) (xs : List ℚ) : List Color := xs.map (fun x => ⟨c, x⟩)

/-- The nested recoloring loop `for view in views: for h in hemis: ...`
(viz.py lines 546-556 and 652-662): every mesh `hemi_meshes[h + '_' + view]`
gets `cmap(k * data_h + b)`. -/
def recolor (c : Cmap) (k b : ℚ) (views : List View) (hemis : List Hemi)
    (nLh : ℕ) (stcData : List ℚ) : List ((Hemi × View) × List Color) :=
  views.flatMap (fun v => hemis.map
    (fun h => ((h, v), apply_cmap c (renorm k b (hemi_data nLh stcData h)))))

/-- The immutable context of the time-viewer closures: limit colormap kind,
global alpha, requested views and hemispheres, left-hemisphere vertex count,
the morphed data per time index (`morph_mat.dot(stc.data[:, t])`), the time
axis, the label formatter, and the fixed colorbar sample points
`np.linspace(0, 1, cmap.N)`. -/
structure Config where
  lim_str : Bool
  alpha_g : ℚ
  views : List View
  hemis : List Hemi
  nLh : ℕ
  stc_data : ℕ → List ℚ
  times : ℕ → ℚ
  time_label : ℚ → String
  cbar_data : List ℚ

/-- The mutable display state rewritten by the handlers: the nonlocal `cmap`,
`k`, `b`, the mesh colors of `hemi_meshes`, the time label, the slider value,
the three threshold inputs, and the colorbar heat-map colors. -/
structure VState where
  cmap : Cmap
  k : ℚ
  b : ℚ
  mesh_colors : List ((Hemi × View) × List Color)
  label_val : String
  slider_val : ℕ
  in_fmin : ℚ
  in_fmid : ℚ
  in_fmax : ℚ
  cbar_colors : List Color
deriving Repr

/-- `slider_handler` (viz.py lines 538-562): on a slider change to `newVal`
it recomputes the morphed data at the new index, recolors every mesh with the
current `cmap`, `k`, `b`, and rewrites the time label; nothing else is
assigned. -/
def slider_handler (cfg : Config) (s : VState) (newVal : ℕ) : VState :=
  { s with
    slider_val := newVal
    mesh_colors := recolor s.cmap s.k s.b cfg.views cfg.hemis cfg.nLh
      (cfg.stc_data newVal)
    label_val := cfg.time_label (cfg.times newVal) }

/-- `on_update` (viz.py lines 622-678), the update-mesh button handler.
Raising is modelled as `Except.error` carrying the exception name together
with the state at the moment of the raise: the `fmin < fmid < fmax` check
fires before any nonlocal assignment, while the python float division
`1 / (dt_max - dt_min)` raises ZeroDivisionError one line after `cmap` was
already reassigned (lines 648-649). -/
def on_update (cfg : Config) (s : VState) : Except (String × VState) VState :=
  if s.in_fmin < s.in_fmid ∧ s.in_fmid < s.in_fmax then
    let ctrl : ℚ × ℚ × ℚ := (s.in_fmin, s.in_fmid, s.in_fmax)
    let scale : ℚ × ℚ × ℚ :=
      if cfg.lim_str then ctrl else (-s.in_fmax, 0, s.in_fmax)
    let dtMin : ℚ := if cfg.lim_str then s.in_fmin else -s.in_fmax
    let dtMax : ℚ := s.in_fmax
    let cmapNew := calculate_cmap cfg.lim_str cfg.alpha_g ctrl scale
    if dtMax - dtMin = 0 then
      Except.error ("ZeroDivisionError", { s with cmap := cmapNew })
    else
      let k := 1 / (dtMax - dtMin)
      let b := 1 - k * dtMax
      Except.ok { s with
        cmap := cmapNew
        k := k
        b := b
        mesh_colors := recolor cmapNew k b cfg.views cfg.hemis cfg.nLh
          (cfg.stc_data s.slider_val)
        cbar_colors := apply_cmap cmapNew cfg.cbar_data }
  else Except.error ("ValueError", s)

/-- `dt_min` chosen by a successful `on_update` (viz.py lines 640, 645):
`fmin` for the string ("hot") limit colormap, `-fmax` for the mne one. -/
def upd_dt_min (cfg : Config) (s : VState) : ℚ :=
  if cfg.lim_str then s.in_fmin else -s.in_fmax

/-- The scale points a successful `on_update` passes to `_calculate_cmap`
(viz.py lines 639, 644). -/
def upd_scale (cfg : Config) (s : VState) : ℚ × ℚ × ℚ :=
  if cfg.lim_str then (s.in_fmin, s.in_fmid, s.in_fmax)
  else (-s.in_fmax, 0, s.in_fmax)

/-- The post-state of a successful `on_update`. -/
def vupd (cfg : Config) (s : VState) : VState :=
  let cmapNew := calculate_cmap cfg.lim_str cfg.alpha_g
    (s.in_fmin, s.in_fmid, s.in_fmax) (upd_scale cfg s)
  let k := 1 / (s.in_fmax - upd_dt_min cfg s)
  let b := 1 - k * s.in_fmax
  { s with
    cmap := cmapNew
    k := k
    b := b
    mesh_colors := recolor cmapNew k b cfg.views cfg.hemis cfg.nLh
      (cfg.stc_data s.slider_val)
    cbar_colors := apply_cmap cmapNew cfg.cbar_data }

/-- Concrete context with the string ("hot") limit colormap, one view and both
hemispheres, used to instantiate the handler theorems. -/
def cfgHot : Config :=
  { lim_str := true
    alpha_g := 1
    views := [View.lat]
    hemis := [Hemi.lh, Hemi.rh]
    nLh := 1
    stc_data := fun _ => [2, 3]
    times := fun t => (t : ℚ)
    time_label := fun _ => "time"
    cbar_data := [0, 1] }

/-- Concrete context with the mne limit colormap. -/
def cfgMne : Config :=
  { cfgHot with lim_str := false }

/-- A concrete display state whose threshold inputs violate
`fmin < fmid < fmax`. -/
def stBad : VState :=
  { cmap := calculate_cmap true 1 (1, 2, 3) (1, 2, 3)
    k := 1 / 2
    b := -(1 / 2)
    mesh_colors := []
    label_val := "time"
    slider_val := 0
    in_fmin := 3
    in_fmid := 2
    in_fmax := 1
    cbar_colors := [] }

/-- A concrete display state with valid threshold inputs `1 < 2 < 3`. -/
def stOk : VState :=
  { stBad with in_fmin := 1, in_fmid := 2, in_fmax := 3 }

/-- A concrete display state with ordered inputs `-2 < -1 < 0`: valid for the
ordering check but degenerate for the mne normalization (`fmax = 0`). -/
def stZero : VState :=
  { stBad with in_fmin := -2, in_fmid := -1, in_fmax := 0 }

/-- C5: a click of the update-mesh button whose entered values do not satisfy
`fmin < fmid < fmax` makes `on_update` raise ValueError before any nonlocal
assignment, so `cmap`, `k`, `b`, every mesh color and the colorbar keep their
previous values (the carried state is exactly the input state). -/
theorem on_update_invalid_leaves_state (cfg : Config) (s : VState)
    (h : ¬ (s.in_fmin < s.in_fmid ∧ s.in_fmid < s.in_fmax)) :
    on_update cfg s = Except.error ("ValueError", s) := by
  unfold on_update
  rw [if_neg h]

/-- Witness for C5: inputs `(3, 2, 1)` are rejected and the state is kept. -/
theorem on_update_invalid_leaves_state_witness :
    on_update cfgHot stBad = Except.error ("ValueError", stBad) :=
  on_update_invalid_leaves_state cfgHot stBad (by norm_num [stBad])

/-- C6: a slider move to index `n` rewrites every mesh color of every
requested view with the current colormap applied to the renormalized morphed
data at `n`, and rewrites the time label; the colormap, the normalization
coefficients `k`, `b`, the threshold inputs and the colorbar are unchanged. -/
theorem slider_handler_spec (cfg : Config) (s : VState) (n : ℕ) :
    (slider_handler cfg s n).mesh_colors
        = recolor s.cmap s.k s.b cfg.views cfg.hemis cfg.nLh (cfg.stc_data n) ∧
    (∀ h, h ∈ cfg.hemis → ∀ v, v ∈ cfg.views →
      ((h, v), apply_cmap s.cmap
          (renorm s.k s.b (hemi_data cfg.nLh (cfg.stc_data n) h)))
        ∈ (slider_handler cfg s n).mesh_colors) ∧
    (slider_handler cfg s n).label_val = cfg.time_label (cfg.times n) ∧
    (slider_handler cfg s n).cmap = s.cmap ∧
    (slider_handler cfg s n).k = s.k ∧
    (slider_handler cfg s n).b = s.b ∧
    (slider_handler cfg s n).in_fmin = s.in_fmin ∧
    (slider_handler cfg s n).in_fmid = s.in_fmid ∧
    (slider_handler cfg s n).in_fmax = s.in_fmax ∧
    (slider_handler cfg s n).cbar_colors = s.cbar_colors := by
  refine ⟨rfl, ?_, rfl, rfl, rfl, rfl, rfl, rfl, rfl, rfl⟩
  intro h hh v hv
  simp only [slider_handler, recolor, List.mem_flatMap, List.mem_map]
  exact ⟨v, hv, h, hh, rfl⟩

/-- Witness for C6: the left-hemisphere mesh of the `lat` view is recolored
with the current colormap at the new time index `1`. -/
theorem slider_handler_spec_witness :
    ((Hemi.lh, View.lat), apply_cmap stOk.cmap
        (renorm stOk.k stOk.b (hemi_data cfgHot.nLh (cfgHot.stc_data 1) Hemi.lh)))
      ∈ (slider_handler cfgHot stOk 1).mesh_colors :=
  (slider_handler_spec cfgHot stOk 1).2.1 Hemi.lh (by decide) View.lat (by decide)

/-- Counterexample for C7 as stated: with the mne limit colormap and entered
values `-2 < -1 < 0` (which satisfy `fmin < fmid < fmax`), `on_update` does not
recolor anything: it raises ZeroDivisionError at `k = 1 / (dt_max - dt_min)`
since `dt_max = fmax = 0 = -fmax = dt_min`, one line after reassigning `cmap`. -/
theorem on_update_mne_fmax_zero_counterexample :
    stZero.in_fmin < stZero.in_fmid ∧ stZero.in_fmid < stZero.in_fmax ∧
    on_update cfgMne stZero
      = Except.error ("ZeroDivisionError",
          { stZero with
            cmap := calculate_cmap false 1 (-2, -1, 0) (0, 0, 0) }) := by
  refine ⟨by norm_num [stZero, stBad], by norm_num [stZero, stBad], ?_⟩
  have hord : stZero.in_fmin < stZero.in_fmid ∧ stZero.in_fmid < stZero.in_fmax := by
    norm_num [stZero, stBad]
  have hdz : stZero.in_fmax
      - (if cfgMne.lim_str = true then stZero.in_fmin else -stZero.in_fmax) = 0 := by
    norm_num [cfgMne, cfgHot, stZero, stBad]
  simp only [on_update]
  rw [if_pos hord, if_pos hdz]
  norm_num [cfgMne, cfgHot, stZero, stBad, calculate_cmap]

/-- C7 (amended with `dt_max ≠ dt_min`, i.e. `fmax ≠ 0` when the limit
colormap is mne): a valid threshold update rebuilds the colormap from the new
control points with scale points `(fmin, fmid, fmax)` for the string ("hot")
limit colormap and `(-fmax, 0, fmax)` for the mne one, resets `k`, `b` so that
`dt_min ↦ 0` and `dt_max ↦ 1` with `(dt_min, dt_max) = (fmin, fmax)`
respectively `(-fmax, fmax)`, recolors every mesh of every view with the new
colormap applied to the renormalized data at the currently selected time
index, and redraws the colorbar with the new colormap. -/
theorem on_update_valid_spec (cfg : Config) (s : VState)
    (h1 : s.in_fmin < s.in_fmid) (h2 : s.in_fmid < s.in_fmax)
    (hz : cfg.lim_str = false → s.in_fmax ≠ 0) :
    on_update cfg s = Except.ok (vupd cfg s) ∧
    (vupd cfg s).cmap = calculate_cmap cfg.lim_str cfg.alpha_g
      (s.in_fmin, s.in_fmid, s.in_fmax) (upd_scale cfg s) ∧
    (vupd cfg s).k * upd_dt_min cfg s + (vupd cfg s).b = 0 ∧
    (vupd cfg s).k * s.in_fmax + (vupd cfg s).b = 1 ∧
    (vupd cfg s).mesh_colors
      = recolor (vupd cfg s).cmap (vupd cfg s).k (vupd cfg s).b
          cfg.views cfg.hemis cfg.nLh (cfg.stc_data s.slider_val) ∧
    (∀ h, h ∈ cfg.hemis → ∀ v, v ∈ cfg.views →
      ((h, v), apply_cmap (vupd cfg s).cmap
          (renorm (vupd cfg s).k (vupd cfg s).b
            (hemi_data cfg.nLh (cfg.stc_data s.slider_val) h)))
        ∈ (vupd cfg s).mesh_colors) ∧
    (vupd cfg s).cbar_colors = apply_cmap (vupd cfg s).cmap cfg.cbar_data := by
  have hnz : s.in_fmax - upd_dt_min cfg s ≠ 0 := by
    unfold upd_dt_min
    cases hls : cfg.lim_str
    · rw [if_neg (by simp)]
      intro hc
      exact hz hls (by linarith)
    · rw [if_pos rfl]
      intro hc
      linarith
  refine ⟨?_, rfl, ?_, ?_, rfl, ?_, rfl⟩
  · have hnz' : s.in_fmax
        - (if cfg.lim_str = true then s.in_fmin else -s.in_fmax) ≠ 0 := hnz
    simp only [on_update, vupd, upd_scale, upd_dt_min]
    rw [if_pos ⟨h1, h2⟩, if_neg hnz']
  · show (1 / (s.in_fmax - upd_dt_min cfg s)) * upd_dt_min cfg s
      + (1 - (1 / (s.in_fmax - upd_dt_min cfg s)) * s.in_fmax) = 0
    field_simp
  · show (1 / (s.in_fmax - upd_dt_min cfg s)) * s.in_fmax
      + (1 - (1 / (s.in_fmax - upd_dt_min cfg s)) * s.in_fmax) = 1
    ring
  · intro h hh v hv
    simp only [vupd, recolor, List.mem_flatMap, List.mem_map]
    exact ⟨v, hv, h, hh, rfl⟩

/-- Witness for C7: a hot-colormap update with inputs `1 < 2 < 3` succeeds and
its normalization maps `dt_min = 1` to `0` and `dt_max = 3` to `1`. -/
theorem on_update_valid_spec_witness :
    on_update cfgHot stOk = Except.ok (vupd cfgHot stOk) ∧
    (vupd cfgHot stOk).k * upd_dt_min cfgHot stOk + (vupd cfgHot stOk).b = 0 ∧
    (vupd cfgHot stOk).k * stOk.in_fmax + (vupd cfgHot stOk).b = 1 :=
  ⟨(on_update_valid_spec cfgHot stOk (by norm_num [stOk, stBad])
      (by norm_num [stOk, stBad]) (fun hc => absurd hc (by decide))).1,
    (on_update_valid_spec cfgHot stOk (by norm_num [stOk, stBad])
      (by norm_num [stOk, stBad]) (fun hc => absurd hc (by decide))).2.2.1,
    (on_update_valid_spec cfgHot stOk (by norm_num [stOk, stBad])
      (by norm_num [stOk, stBad]) (fun hc => absurd hc (by decide))).2.2.2.1⟩

/-! ### The activation-data split in `plot_brain_mesh` (viz.py lines 136-148) -/

/-- `act_data.min()` under numpy semantics for a nonempty array. -/
def list_min (xs : List ℚ) : ℚ := xs.foldl min (xs.headD 0)

/-- `act_data.max()` under numpy semantics for a nonempty array. -/
def list_max (xs : List ℚ) : ℚ := xs.foldl max (xs.headD 0)

/-- The normalization `plot_brain_mesh` applies to `act_data` before the
split (viz.py lines 136-143): `k = 1 / (dt_max - dt_min)`,
`b = 1 - k * dt_max` with the array's own min/max, then `k * act_data + b`;
the following `np.clip(act_data, 0, 1)` discards its result. -/
def brain_norm (ad : List ℚ) : List ℚ :=
  let dtMin := list_min ad
  let dtMax := list_max ad
  let k := 1 / (dtMax - dtMin)
  let b := 1 - k * dtMax
  ad.map (fun x => k * x + b)

/-- The activation branch of `plot_brain_mesh` up to the hemisphere color
data (viz.py lines 86-148): with `act_data=None` both hemispheres get no
activation colors; with activation data the code evaluates
`len(lh_vertices)` unconditionally (viz.py line 145), so `lh_vertices=None`
raises `TypeError: object of type NoneType has no len()`; otherwise the first
`len(lh_vertices)` normalized values go to the left hemisphere and the rest to
the right. -/
def plot_brain_mesh_split (act_data : Option (List ℚ))
    (lh_vertices : Option (List (ℚ × ℚ × ℚ))) :
    Except String (Option (List ℚ) × Option (List ℚ)) :=
  match act_data with
  | none => Except.ok (none, none)
  | some ad =>
    match lh_vertices with
    | none => Except.error "TypeError"
    | some vs =>
      let nd := brain_norm ad
      Except.ok (some (nd.take vs.length), some (nd.drop vs.length))

/-- C8: `plot_brain_mesh` splits non-None activation data at index
`len(lh_vertices)`: the first `len(lh_vertices)` (normalized) values color the
left hemisphere, the rest the right, and together they are exactly the
normalized data; passing `act_data` with `lh_vertices=None` raises TypeError
even when only right-hemisphere geometry was supplied, since the split is
evaluated before any hemisphere is plotted. -/
theorem plot_brain_mesh_split_spec (ad : List ℚ) :
    plot_brain_mesh_split (some ad) none = Except.error "TypeError" ∧
    (∀ vs, plot_brain_mesh_split (some ad) (some vs)
        = Except.ok (some ((brain_norm ad).take vs.length),
            some ((brain_norm ad).drop vs.length))) ∧
    (∀ vs : List (ℚ × ℚ × ℚ),
      (brain_norm ad).take vs.length ++ (brain_norm ad).drop vs.length
        = brain_norm ad) ∧
    (brain_norm ad).length = ad.length :=
  ⟨rfl, fun _ => rfl, fun _ => List.take_append_drop _ _,
    List.length_map _ _⟩

/-! ### Argument validation of `plot_source_estimates` (viz.py lines 348-388) -/

/-- The exceptions the validation raises. -/
inductive VizError
  | valueError
  | notImplementedError
deriving DecidableEq, Repr

/-- Observable steps of a `plot_source_estimates` call: a raised exception, a
created figure (`ipv.figure`, first at viz.py line 458), or a created widget
(first at line 512). -/
inductive TraceStep
  | raised (e : VizError)
  | figureCreated
  | widgetCreated
deriving DecidableEq, Repr

/-- The keys of `views_dict` (viz.py lines 351-358). -/
def view_names : List String :=
  ["lat", "med", "fos", "cau", "dor", "ven", "fro", "par"]

/-- The admissible `hemi` values (viz.py line 386). -/
def hemi_names : List String := ["lh", "rh", "split", "both"]

/-- The arguments relevant to the validation prefix of
`plot_source_estimates`. -/
structure PSEArgs where
  stc_is_source_estimate : Bool
  views : List String
  colormap_is_str : Bool
  cortex : String
  figure_is_none : Bool
  hemi : String
deriving DecidableEq, Repr

/-- The validation prefix of `plot_source_estimates` in source order (viz.py
lines 348-388): ValueError for a non-SourceEstimate `stc` and for an unknown
view name, NotImplementedError for a non-string colormap, a cortex other than
"classic" and a non-None figure, ValueError for an unknown `hemi`; only after
every check does the function start creating figures and widgets. -/
def pse_trace (a : PSEArgs) : List TraceStep :=
  if a.stc_is_source_estimate = false then [TraceStep.raised VizError.valueError]
  else if a.views.all (fun v => view_names.contains v) = false then
    [TraceStep.raised VizError.valueError]
  else if a.colormap_is_str = false then
    [TraceStep.raised VizError.notImplementedError]
  else if ¬ a.cortex = "classic" then
    [TraceStep.raised VizError.notImplementedError]
  else if a.figure_is_none = false then
    [TraceStep.raised VizError.notImplementedError]
  else if hemi_names.contains a.hemi = false then
    [TraceStep.raised VizError.valueError]
  else [TraceStep.figureCreated, TraceStep.widgetCreated]

/-- C9: `plot_source_estimates` validates before any figure or widget exists:
each listed bad argument (with the checks the code performs earlier passing)
raises the listed exception, and whenever an exception is raised, no figure
and no widget has been created. -/
theorem pse_trace_validation (a : PSEArgs) :
    (a.stc_is_source_estimate = false →
      pse_trace a = [TraceStep.raised VizError.valueError]) ∧
    (a.stc_is_source_estimate = true →
      a.views.all (fun v => view_names.contains v) = false →
      pse_trace a = [TraceStep.raised VizError.valueError]) ∧
    (a.stc_is_source_estimate = true →
      a.views.all (fun v => view_names.contains v) = true →
      a.colormap_is_str = false →
      pse_trace a = [TraceStep.raised VizError.notImplementedError]) ∧
    (a.stc_is_source_estimate = true →
      a.views.all (fun v => view_names.contains v) = true →
      a.colormap_is_str = true → ¬ a.cortex = "classic" →
      pse_trace a = [TraceStep.raised VizError.notImplementedError]) ∧
    (a.stc_is_source_estimate = true →
      a.views.all (fun v => view_names.contains v) = true →
      a.colormap_is_str = true → a.cortex = "classic" →
      a.figure_is_none = false →
      pse_trace a = [TraceStep.raised VizError.notImplementedError]) ∧
    (a.stc_is_source_estimate = true →
      a.views.all (fun v => view_names.contains v) = true →
      a.colormap_is_str = true → a.cortex = "classic" →
      a.figure_is_none = true → hemi_names.contains a.hemi = false →
      pse_trace a = [TraceStep.raised VizError.valueError]) ∧
    (∀ e, TraceStep.raised e ∈ pse_trace a →
      TraceStep.figureCreated ∉ pse_trace a ∧
      TraceStep.widgetCreated ∉ pse_trace a) := by
  unfold pse_trace
  split_ifs with hA hB hC hD hE hF <;>
    refine ⟨?_, ?_, ?_, ?_, ?_, ?_, ?_⟩ <;> simp_all

/-- Witness for C9: a non-SourceEstimate `stc`, an unknown view name and an
unknown `hemi` each produce the ValueError with nothing created. -/
theorem pse_trace_validation_witness :
    pse_trace ⟨false, ["lat"], true, "classic", true, "lh"⟩
      = [TraceStep.raised VizError.valueError] ∧
    pse_trace ⟨true, ["bad"], true, "classic", true, "lh"⟩
      = [TraceStep.raised VizError.valueError] ∧
    pse_trace ⟨true, ["lat"], true, "classic", true, "hemi"⟩
      = [TraceStep.raised VizError.valueError] :=
  ⟨(pse_trace_validation ⟨false, ["lat"], true, "classic", true, "lh"⟩).1 (by decide),
    (pse_trace_validation ⟨true, ["bad"], true, "classic", true, "lh"⟩).2.1
      (by decide) (by decide),
    (pse_trace_validation ⟨true, ["lat"], true, "classic", true, "hemi"⟩).2.2.2.2.2.1
      (by decide) (by decide) (by decide) (by decide) (by decide) (by decide)⟩

/-! ### Figures per view in `plot_source_estimates` (viz.py lines 451-521) -/

/-- A figure created by `ipv.figure`: identified by the view of its loop
iteration and, in split mode, the hemisphere. -/
structure Fig where
  view : View
  hemi : Option Hemi
deriving DecidableEq, Repr

/-- One entry of the `figs` list: either a single figure (non-split mode) or a
`figs_row` list (split mode). -/
inductive FigEntry
  | single (f : Fig)
  | row (fs : List Fig)
deriving DecidableEq, Repr

/-- One step of the inner hemisphere loop as far as `figs_row` is concerned
(viz.py lines 461-493): a figure is appended to the row only when the
hemisphere has data and the mode is split. -/
def row_step (hemi : String) (nLh : ℕ) (stcData : List ℚ) (v : View)
    (acc : Option (List Fig)) (h : Hemi) : Option (List Fig) :=
  if 0 < (hemi_data nLh stcData h).length ∧ hemi = "split" then
    some ((acc.getD []) ++ [{ view := v, hemi := some h }])
  else acc

/-- One iteration of the view loop (viz.py lines 453-510): `figs_row` starts
as None, a figure is created up front when the mode is not split, the
hemisphere loop may fill `figs_row`, and the loop appends `figs_row` if it was
set and the up-front figure otherwise.  The `none` result marks the corner in
which split mode appends the unbound name `fig`. -/
def view_entry (hemi : String) (hemis : List Hemi) (nLh : ℕ) (stcData : List ℚ)
    (v : View) : Option FigEntry :=
  match hemis.foldl (row_step hemi nLh stcData v) none with
  | some fs => some (FigEntry.row fs)
  | none =>
    if ¬ hemi = "split" then some (FigEntry.single { view := v, hemi := none })
    else none

/-- The `figs` list returned by `plot_source_estimates` (viz.py lines 451-510
and 693-695). -/
def plot_figs (hemi : String) (views : List View) (hemis : List Hemi)
    (nLh : ℕ) (stcData : List ℚ) : List (Option FigEntry) :=
  views.map (view_entry hemi hemis nLh stcData)

lemma row_step_fold_none (hemi : String) (hemis : List Hemi) (nLh : ℕ)
    (stcData : List ℚ) (v : View) (hne : ¬ hemi = "split")
    (acc : Option (List Fig)) :
    hemis.foldl (row_step hemi nLh stcData v) acc = acc := by
  induction hemis generalizing acc with
  | nil => rfl
  | cons h t ih =>
    rw [List.foldl_cons, row_step, if_neg (by rintro ⟨-, hc⟩; exact hne hc)]
    exact ih acc

lemma view_entry_nonsplit (hemi : String) (hemis : List Hemi) (nLh : ℕ)
    (stcData : List ℚ) (v : View) (hne : ¬ hemi = "split") :
    view_entry hemi hemis nLh stcData v
      = some (FigEntry.single { view := v, hemi := none }) := by
  unfold view_entry
  rw [row_step_fold_none hemi hemis nLh stcData v hne]
  show (if ¬ hemi = "split" then some (FigEntry.single { view := v, hemi := none })
    else none) = some (FigEntry.single { view := v, hemi := none })
  exact if_pos hne

/-- C10: for `hemi` in lh/rh/both, a normally returning
`plot_source_estimates` returns one figure per requested view, in the order
the views were given. -/
theorem plot_figs_one_per_view (hemi : String) (views : List View)
    (hemis : List Hemi) (nLh : ℕ) (stcData : List ℚ)
    (hh : hemi = "lh" ∨ hemi = "rh" ∨ hemi = "both") :
    (plot_figs hemi views hemis nLh stcData).length = views.length ∧
    ∀ i : ℕ, (plot_figs hemi views hemis nLh stcData)[i]? =
      (views[i]?).map
        (fun v => some (FigEntry.single { view := v, hemi := none })) := by
  have hne : ¬ hemi = "split" := by
    rcases hh with h | h | h <;> rw [h] <;> decide
  constructor
  · exact List.length_map _ _
  · intro i
    rw [plot_figs, List.getElem?_map]
    rcases views[i]? with - | v
    · rfl
    · show some (view_entry hemi hemis nLh stcData v)
        = some (some (FigEntry.single { view := v, hemi := none }))
      rw [view_entry_nonsplit hemi hemis nLh stcData v hne]

/-- Witness for C10: `hemi='both'` with views `[lat, med]` yields exactly two
single figures in view order. -/
theorem plot_figs_one_per_view_witness :
    (plot_figs "both" [View.lat, View.med] [Hemi.lh, Hemi.rh] 1 [1, 2]).length
      = 2 ∧
    (plot_figs "both" [View.lat, View.med] [Hemi.lh, Hemi.rh] 1 [1, 2])[0]?
      = some (some (FigEntry.single { view := View.lat, hemi := none })) := by
  have hth := plot_figs_one_per_view "both" [View.lat, View.med]
    [Hemi.lh, Hemi.rh] 1 [1, 2] (by decide)
  exact ⟨hth.1.trans (by rfl), (hth.2 0).trans (by rfl)⟩

/-! ### The scene container children (viz.py lines 512-521, 682-691) -/

/-- Widgets appearing among the children of the top-level ipyvolume
container: the title, a figure entry (or an HBox row of figures in split
mode), the animation control `HBox(play, slider, label)`, or the colorbar box
`VBox(control, cbar_fig, fmin, fmid, fmax, button)`. -/
inductive SceneWidget
  | titleW
  | figW (e : Option FigEntry)
  | controlW
  | infoW
deriving DecidableEq, Repr

/-- The children of the top-level container after `plot_source_estimates`
finishes: the title and the figures are assigned first (viz.py lines 512-521);
only inside `if time_viewer:` (line 523) is anything appended — the colorbar
box when `colorbar` is true (line 689), else the bare control (line 691). -/
def scene_children (figEntries : List (Option FigEntry))
    (time_viewer colorbar : Bool) : List SceneWidget :=
  let base := SceneWidget.titleW :: figEntries.map SceneWidget.figW
  if time_viewer then
    if colorbar then base ++ [SceneWidget.infoW]
    else base ++ [SceneWidget.controlW]
  else base

/-- C2: the claim (and the docstring of `colorbar`) says `colorbar=True`
displays the colorbar control regardless of `time_viewer`.  The code nests the
whole colorbar block inside `if time_viewer:`, so with `time_viewer=False`
(the default) and `colorbar=True` no colorbar appears; in general the colorbar
box is among the scene children exactly when both flags are true. -/
theorem scene_children_colorbar_needs_time_viewer :
    SceneWidget.infoW ∉ scene_children [] false true ∧
    SceneWidget.infoW ∈ scene_children [] true true ∧
    ∀ figEntries tv cb,
      (SceneWidget.infoW ∈ scene_children figEntries tv cb ↔
        tv = true ∧ cb = true) := by
  refine ⟨by decide, by decide, ?_⟩
  intro figEntries tv cb
  have hbase : SceneWidget.infoW ∉
      SceneWidget.titleW :: figEntries.map SceneWidget.figW := by
    intro hc
    rcases List.mem_cons.1 hc with h | h
    · exact SceneWidget.noConfusion h
    · rcases List.mem_map.1 h with ⟨e, -, he⟩
      exact SceneWidget.noConfusion he
  cases tv <;> cases cb <;>
    simp only [scene_children, List.mem_append, List.mem_singleton] <;>
    simp_all
